import Mathlib

set_option autoImplicit false

namespace DevMind

/-!
Shallow embedding of the devmind collection and reconciliation engine:
src/devmind/data_collector/tasks.py, src/devmind/data_collector/serializers.py,
src/devmind/data_collector/services/providers/jira.py and
src/devmind/task_manager/task_lock.py.

Instants are integers counting seconds; `days n` models `timedelta(days=n)`.
External effects (attachment download, disk writes and removals, the Jira
client) enter as explicit oracle parameters so that the control flow of the
Python source is reproduced exactly.  JSON payloads are carried as opaque
strings; an `Option` field models a JSON value that may be absent or null.
-/

/-- Seconds in one day, matching `timedelta(days=1).total_seconds()`. -/
def daySeconds : Int := 86400

/-- Model of `timedelta(days=n)` as a duration in seconds. -/
def days (n : Nat) : Int := (n : Int) * daySeconds

/-- Value stored in a returned task-result dictionary. -/
inductive RVal where
  | b (x : Bool)
  | n (x : Nat)
  | s (x : String)
deriving DecidableEq, Repr

/-- Python truthiness of an optional string: `if not sid:` treats both
`None` and the empty string as missing. -/
def sidTruthy (o : Option String) : Option String :=
  match o with
  | some s => if s = "" then none else some s
  | none => none

/-- Attachment metadata as produced by `Provider.fetch_attachments`; only
the keys read by `_sync_attachments_for_record` for row bookkeeping are
carried (file_type, file_size and the source timestamps are copied into
columns no claim mentions and are elided, as is the md5 of the content). -/
structure AttMeta where
  source_file_id : Option String
  file_name : Option String
deriving DecidableEq, Repr

/-- Stored `RawDataAttachment` row (models.py); `uuid` doubles as the row
identity used by `.update()` and `.delete()`.  Columns not read by any
claim (file_url, file_type, file_size, file_md5, source timestamps) are
elided. -/
structure AttRow where
  uuid : String
  source_file_id : Option String
  file_name : String
  file_path : String
deriving DecidableEq, Repr

/-- Set of non-null reported source_file_ids with `str(sid)[:255]` applied
(tasks.py lines 55-59).  A list models the Python set: only membership and
emptiness are consumed. -/
def currentSourceIds (attList : List AttMeta) : List String :=
  attList.filterMap (fun m => m.source_file_id.map (fun s => s.take 255))

/-- Disk path `{root}/raw_data/{record_uuid}/{attachment_uuid}` from
`attachment_file_path` in services/storage.py (the configurable root
prefix is elided). -/
def attachmentFilePath (recUuid attUuid : String) : String :=
  "raw_data/" ++ recUuid ++ "/" ++ attUuid

/-- One iteration of the download/upsert loop of
`_sync_attachments_for_record` (tasks.py lines 62-140).  The accumulator is
((rows, next fresh uuid index), synced counter); `download` models
`provider.download_attachment_content` where `none` or empty content means
"skip this attachment", and `writeOk` tells whether the
`open(path, "wb")` write succeeds (on failure the loop continues without a
row change). -/
def upsertOne (download : AttMeta → Option String) (writeOk : String → Bool)
    (recUuid : String) (acc : (List AttRow × Nat) × Nat) (m : AttMeta) :
    (List AttRow × Nat) × Nat :=
  let rows : List AttRow := acc.1.1
  let nextId : Nat := acc.1.2
  let synced : Nat := acc.2
  let sid : Option String :=
    sidTruthy (m.source_file_id.map (fun s => s.take 255))
  match download m with
  | none => acc
  | some content =>
    if content = "" then acc else
    let fn0 := match m.file_name with
      | none => "attachment"
      | some s => if s = "" then "attachment" else s
    let fn1 := fn0.trim
    let fileName := (if fn1 = "" then "attachment" else fn1).take 512
    let existing : Option AttRow := match sid with
      | some s => rows.find? (fun r => r.source_file_id == some s)
      | none => none
    let attUuid : String := match existing with
      | some r => r.uuid
      | none => "att-" ++ toString nextId
    let nextId1 : Nat := match existing with
      | some _ => nextId
      | none => nextId + 1
    let path : String := attachmentFilePath recUuid attUuid
    if !(writeOk path) then ((rows, nextId1), synced) else
    match sid with
    | some s =>
      match existing with
      | some ex =>
        ((rows.map (fun r =>
            if r.uuid == ex.uuid then
              { r with file_name := fileName, file_path := path.take 1024 }
            else r), nextId1), synced + 1)
      | none =>
        ((rows ++ [{ uuid := attUuid, source_file_id := some s,
                     file_name := fileName, file_path := path.take 1024 }],
          nextId1), synced + 1)
    | none =>
      ((rows ++ [{ uuid := attUuid, source_file_id := none,
                   file_name := fileName, file_path := path.take 1024 }],
        nextId1), synced + 1)

/-- Row set, next fresh uuid index and synced count after the whole upsert
loop of `_sync_attachments_for_record`. -/
def upsertPhase (download : AttMeta → Option String) (writeOk : String → Bool)
    (recUuid : String) (rows : List AttRow) (uuidStart : Nat)
    (attList : List AttMeta) : (List AttRow × Nat) × Nat :=
  attList.foldl (upsertOne download writeOk recUuid) ((rows, uuidStart), 0)

/-- Predicate selected by the exclusion chain of tasks.py lines 143-148: a
row survives removal unless its source_file_id is non-null, non-empty and
not among the reported ids. -/
def isStaleRow (cur : List String) (r : AttRow) : Bool :=
  match r.source_file_id with
  | some s => !(cur.contains s) && !(s == "")
  | none => false

/-- Rows selected for deletion after the upsert pass (tasks.py lines
142-150): when at least one reported source_file_id exists the query
excludes reported, NULL and empty-string ids; when the reported id set is
empty the whole attachment set of the record is selected. -/
def staleAttachmentRows (rows : List AttRow) (cur : List String) :
    List AttRow :=
  if cur.isEmpty then rows
  else rows.filter (fun r => isStaleRow cur r)

/-- The whole `_sync_attachments_for_record` (tasks.py lines 41-170).
`fetchResult = none` models `provider.fetch_attachments` raising: the
function logs and returns (0, 0) changing nothing.  Otherwise the upsert
loop runs and then the stale rows are deleted; file removal before row
deletion is best-effort and never stops row deletion, so it does not
affect the resulting row set.  Returns (rows, synced, removed). -/
def syncAttachmentsForRecord (fetchResult : Option (List AttMeta))
    (download : AttMeta → Option String) (writeOk : String → Bool)
    (recUuid : String) (uuidStart : Nat) (rows : List AttRow) :
    List AttRow × Nat × Nat :=
  match fetchResult with
  | none => (rows, 0, 0)
  | some attList =>
    let cur := currentSourceIds attList
    let afterUpsert := upsertPhase download writeOk recUuid rows uuidStart attList
    let rows1 := afterUpsert.1.1
    let synced := afterUpsert.2
    let toRemove := staleAttachmentRows rows1 cur
    let remaining :=
      if cur.isEmpty then []
      else rows1.filter (fun r => !(isStaleRow cur r))
    (remaining, synced, toRemove.length)

/-- Runtime-state sub-document of `CollectorConfig.value` with the six
timestamp keys of `_default_runtime_state` (serializers.py lines 16-24);
`none` models a null or absent value. -/
structure RuntimeState where
  first_collect_at : Option Int
  last_collect_start_at : Option Int
  last_collect_end_at : Option Int
  last_success_collect_at : Option Int
  last_validate_at : Option Int
  last_cleanup_at : Option Int
deriving DecidableEq, Repr

/-- Default runtime_state: all six timestamp keys null
(`_default_runtime_state`). -/
def defaultRuntimeState : RuntimeState :=
  { first_collect_at := none, last_collect_start_at := none,
    last_collect_end_at := none, last_success_collect_at := none,
    last_validate_at := none, last_cleanup_at := none }

/-- One fetched item as handed back by `Provider.collect`; payload fields
are opaque strings, optional keys model `item.get(...)`. -/
structure Item where
  source_unique_id : Option String
  raw_data : Option String
  filter_metadata : Option String
  data_hash : Option String
  source_created_at : Option Int
  source_updated_at : Option Int
deriving DecidableEq, Repr

/-- Stored `RawDataRecord` row (models.py), scoped to one (user, platform)
pair; its attachment rows are carried inline so that the ON DELETE CASCADE
of the foreign key is the structural removal of the record. -/
structure RawRecord where
  source_unique_id : String
  raw_data : String
  filter_metadata : String
  data_hash : String
  is_deleted : Bool
  source_created_at : Option Int
  source_updated_at : Option Int
  first_collected_at : Option Int
  last_collected_at : Option Int
  attachments : List AttRow
deriving DecidableEq, Repr

/-- Per-run counters of the run_collect persist loop. -/
structure Counts where
  created : Nat
  updated : Nat
  skipped_no_sid : Nat
  skipped_unchanged : Nat
deriving DecidableEq, Repr

/-- Normalisation `item.get("raw_data") or {}` (tasks.py line 388). -/
def itemRawData (item : Item) : String :=
  match item.raw_data with
  | none => ""
  | some x => x

/-- Normalisation `item.get("filter_metadata") or {}` (tasks.py line 389). -/
def itemFilterMetadata (item : Item) : String :=
  match item.filter_metadata with
  | none => ""
  | some x => x

/-- Normalisation `item.get("data_hash") or ""` (tasks.py line 390). -/
def itemDataHash (item : Item) : String :=
  match item.data_hash with
  | none => ""
  | some x => x

/-- Persistence rule for one fetched item: the body of the run_collect
persist loop (tasks.py lines 383-435), scoped to the (user, platform) of
the config (the store is that pair's record list). -/
def processItem (now : Int) (acc : List RawRecord × Counts) (item : Item) :
    List RawRecord × Counts :=
  let store := acc.1
  let cnt := acc.2
  match sidTruthy item.source_unique_id with
  | none => (store, { cnt with skipped_no_sid := cnt.skipped_no_sid + 1 })
  | some sid =>
    match store.find? (fun r => r.source_unique_id == sid) with
    | none =>
      (store ++ [{ source_unique_id := sid,
                   raw_data := itemRawData item,
                   filter_metadata := itemFilterMetadata item,
                   data_hash := itemDataHash item,
                   is_deleted := false,
                   source_created_at := item.source_created_at,
                   source_updated_at := item.source_updated_at,
                   first_collected_at := some now,
                   last_collected_at := some now,
                   attachments := [] }],
       { cnt with created := cnt.created + 1 })
    | some rec =>
      if rec.data_hash ≠ itemDataHash item then
        (store.map (fun r =>
           if r.source_unique_id == sid then
             { r with raw_data := itemRawData item,
                      filter_metadata := itemFilterMetadata item,
                      data_hash := itemDataHash item,
                      source_created_at := item.source_created_at,
                      source_updated_at := item.source_updated_at,
                      last_collected_at := some now }
           else r),
         { cnt with updated := cnt.updated + 1 })
      else
        (store.map (fun r =>
           if r.source_unique_id == sid then
             { r with last_collected_at := some now }
           else r),
         { cnt with skipped_unchanged := cnt.skipped_unchanged + 1 })

/-- The whole persist loop over the fetched items. -/
def persistItems (items : List Item) (store : List RawRecord) (now : Int) :
    List RawRecord × Counts :=
  items.foldl (processItem now)
    (store, { created := 0, updated := 0, skipped_no_sid := 0,
              skipped_unchanged := 0 })

/-- A caller-supplied time argument of run_collect: absent (None or empty
string, falsy in `if start_time and end_time:`), supplied but rejected by
`parse_datetime`, or supplied and parsed. -/
inductive TimeArg where
  | absent
  | unparseable
  | parsed (t : Int)
deriving DecidableEq, Repr

/-- Outcome of the window-determination phase of run_collect. -/
inductive WindowOutcome where
  | invalidFormat
  | invalidOrder
  | window (s e : Int)
deriving DecidableEq, Repr

/-- Resolution of `value.get("initial_range") or "1m"` followed by the
1m/3m branch (tasks.py lines 242 and 285-290), in days. -/
def resolveInitialRange (r : Option String) : Nat :=
  let ir := match r with
    | none => "1m"
    | some s => if s = "" then "1m" else s
  if ir = "1m" then 30 else if ir = "3m" then 90 else 30

/-- Window determination of run_collect (tasks.py lines 241-319): explicit
range when both arguments are supplied (format check, then order check),
else the initial_range window on the very first run, else the incremental
window from last_success_collect_at clamped to a one-day minimum
lookback. -/
def computeWindow (startArg endArg : TimeArg) (rt : RuntimeState)
    (initialRange : Option String) (now : Int) : WindowOutcome :=
  if startArg ≠ TimeArg.absent ∧ endArg ≠ TimeArg.absent then
    match startArg, endArg with
    | TimeArg.parsed s, TimeArg.parsed e =>
      if s ≥ e then WindowOutcome.invalidOrder else WindowOutcome.window s e
    | _, _ => WindowOutcome.invalidFormat
  else if rt.first_collect_at = none then
    WindowOutcome.window (now - days (resolveInitialRange initialRange)) now
  else
    let start0 := match rt.last_success_collect_at with
      | some t => t
      | none => now - days 30
    let minStart := now - days 1
    let start1 := if start0 > minStart then minStart else start0
    WindowOutcome.window start1 now

/-- Error message of tasks.py lines 250 and 259. -/
def invalidFormatMsg : String := "Invalid start_time or end_time format."

/-- Error message of tasks.py lines 267 and 276. -/
def invalidOrderMsg : String := "start_time must be before end_time."

/-- Failure dictionary returned by run_collect on a rejected time range
(tasks.py lines 257-260 and 274-277). -/
def runCollectFailureDict (err : String) : List (String × RVal) :=
  [("success", RVal.b false), ("error", RVal.s err)]

/-- Success dictionary returned by run_collect (tasks.py lines 538-542). -/
def runCollectSuccessDict (created updated : Nat) : List (String × RVal) :=
  [("success", RVal.b true), ("records_created", RVal.n created),
   ("records_updated", RVal.n updated)]

/-- Success dictionary returned by run_cleanup (tasks.py line 630). -/
def runCleanupSuccessDict (deleted : Nat) : List (String × RVal) :=
  [("success", RVal.b true), ("records_deleted", RVal.n deleted)]

/-- Success dictionary returned by run_validate (tasks.py lines 722-726). -/
def runValidateSuccessDict (validated marked : Nat) : List (String × RVal) :=
  [("success", RVal.b true), ("records_validated", RVal.n validated),
   ("records_marked_deleted", RVal.n marked)]

/-- The run_collect job body after the config is loaded (tasks.py lines
241-542), scoped to one (user, platform).  The provider argument models
`get_provider` plus the `provider.collect` call: `none` is an unknown
platform, `some (Except.error e)` a collect call that raises (re-raised by
run_collect, so the task fails with no record or runtime-state write), and
`some (Except.ok items)` a successful fetch.  The attachment
synchronisation pass after persistence touches no record or runtime-state
field and is modelled separately by `syncAttachmentsForRecord`.  Returns
(records, runtime_state, outcome) where the outcome is the returned result
dictionary or the propagated exception. -/
def runCollect (store : List RawRecord) (rt : RuntimeState)
    (startArg endArg : TimeArg) (initialRange : Option String)
    (provider : Option (Except String (List Item))) (now : Int) :
    List RawRecord × RuntimeState × Except String (List (String × RVal)) :=
  match computeWindow startArg endArg rt initialRange now with
  | WindowOutcome.invalidFormat =>
    (store, rt, Except.ok (runCollectFailureDict invalidFormatMsg))
  | WindowOutcome.invalidOrder =>
    (store, rt, Except.ok (runCollectFailureDict invalidOrderMsg))
  | WindowOutcome.window _ _ =>
    match provider with
    | none => (store, rt, Except.ok (runCollectSuccessDict 0 0))
    | some (Except.error e) => (store, rt, Except.error e)
    | some (Except.ok items) =>
      let persisted := persistItems items store now
      let cnt := persisted.2
      let rt1 := { rt with
        last_collect_start_at := some now,
        last_collect_end_at := some now,
        last_success_collect_at := some now,
        first_collect_at := match rt.first_collect_at with
          | none => some now
          | some t => some t }
      (persisted.1, rt1,
       Except.ok (runCollectSuccessDict cnt.created cnt.updated))

/-- The run_cleanup job body after the config is loaded (tasks.py lines
588-630), scoped to one (user, platform).  `fs` is the set of existing
backing files (os.path.isfile), `removeOk` whether an attempted os.remove
succeeds (failure is swallowed and row deletion proceeds).  Returns
(records, files, runtime_state, records_deleted). -/
def runCleanup (store : List RawRecord) (fs : List String)
    (rt : RuntimeState) (retentionDays : Option Nat)
    (removeOk : String → Bool) (now : Int) :
    List RawRecord × List String × RuntimeState × Nat :=
  let retention := match retentionDays with
    | some d => if d = 0 then 180 else d
    | none => 180
  let cutoff := now - days retention
  let expired := fun (r : RawRecord) =>
    match r.last_collected_at with
    | some t => decide (t < cutoff)
    | none => false
  let toDelete := store.filter expired
  let count := toDelete.length
  let deletedPaths := toDelete.foldl
    (fun acc r => acc ++ r.attachments.map (fun a => a.file_path)) []
  let fs1 := fs.filter (fun p =>
    !(p != "" && deletedPaths.contains p && removeOk p))
  let remaining := store.filter (fun r => !(expired r))
  (remaining, fs1, { rt with last_cleanup_at := some now }, count)

/-- Outcome of one `jira.issue(key, fields="key")` call inside
`JiraProvider.validate`: the call returns, raises because the issue does
not exist, or raises for another reason (auth, transport, server error).
The bare `except Exception` of the source cannot tell the last two
apart. -/
inductive KeyOutcome where
  | fetched
  | notFound
  | transportError
deriving DecidableEq, Repr

/-- `JiraProvider.validate` (services/providers/jira.py lines 211-234):
empty input or a failed client construction (`clientOk = false`, the outer
`except`) gives []; otherwise every key whose fetch raises, for either
reason, is appended to the missing list. -/
def jiraValidate (clientOk : Bool) (fetchIssue : String → KeyOutcome)
    (source_unique_ids : List String) : List String :=
  if source_unique_ids.isEmpty then []
  else if !clientOk then []
  else source_unique_ids.filter (fun k =>
    match fetchIssue k with
    | KeyOutcome.fetched => false
    | KeyOutcome.notFound => true
    | KeyOutcome.transportError => true)

/-- The run_validate job body after the config is loaded (tasks.py lines
654-726), scoped to one (user, platform): collect the ids of
non-tombstoned records whose last_collected_at lies in [st, et] (both ends
inclusive), ask the provider (`none` models an unknown platform, giving an
empty missing list), then mark every record whose id was reported missing.
Returns (records, records_validated, records_marked_deleted). -/
def runValidate (store : List RawRecord)
    (validateFn : Option (List String → List String)) (st et : Int) :
    List RawRecord × Nat × Nat :=
  let ids := (store.filter (fun r =>
      !r.is_deleted &&
      (match r.last_collected_at with
       | some t => decide (st ≤ t) && decide (t ≤ et)
       | none => false))).map (fun r => r.source_unique_id)
  let missing := match validateFn with
    | some f => f ids
    | none => []
  let store1 := store.map (fun r =>
    if missing.contains r.source_unique_id then { r with is_deleted := true }
    else r)
  (store1, ids.length, missing.length)

/-- Auth sub-document of the config value: the two secret keys the
serializer treats specially, plus the remaining string fields as an
association list (an incoming key overrides a stored one, like a dict
merge). -/
structure AuthDoc where
  password : Option String
  api_token : Option String
  rest : List (String × String)
deriving DecidableEq, Repr

/-- Top-level config value document: `runtime_state` and `auth` are the
sub-documents `CollectorConfigSerializer.update` handles specially; every
other top-level key is carried in the association list.  `none` models a
key that is absent, null or (for runtime_state) an empty object — all
falsy in the `or` expressions of the source. -/
structure CfgValue where
  runtime_state : Option RuntimeState
  auth : Option AuthDoc
  rest : List (String × String)
deriving DecidableEq, Repr

/-- Stored CollectorConfig fields writable through the serializer (uuid,
user and the automatic timestamps are read-only). -/
structure ConfigDoc where
  key : String
  value : CfgValue
  is_enabled : Bool
  version : Int
deriving DecidableEq, Repr

/-- validated_data of an update call: a `some` field means the caller
supplied that key. -/
structure ValidatedData where
  version : Option Int
  value : Option CfgValue
  key : Option String
  is_enabled : Option Bool
deriving DecidableEq, Repr

/-- Shallow dict merge on the association-list part: every current key not
overridden survives, every incoming pair wins. -/
def assocMerge (cur inc : List (String × String)) : List (String × String) :=
  cur.filter (fun p => !(inc.any (fun q => q.1 == p.1))) ++ inc

/-- Merge of the auth sub-documents (serializers.py lines 60-71): dict
merge with incoming fields overriding, then each blank secret (`password`,
`api_token`) restored from the stored document (or set to the empty
string when the stored document has none). -/
def mergeAuth (cur inc : AuthDoc) : AuthDoc :=
  let p0 := match inc.password with
    | some p => some p
    | none => cur.password
  let t0 := match inc.api_token with
    | some t => some t
    | none => cur.api_token
  let pBlank := (match p0 with | none => "" | some p => p).trim == ""
  let tBlank := (match t0 with | none => "" | some t => t).trim == ""
  let p1 := if pBlank
    then some (match cur.password with | none => "" | some p => p)
    else p0
  let t1 := if tBlank
    then some (match cur.api_token with | none => "" | some t => t)
    else t0
  { password := p1, api_token := t1, rest := assocMerge cur.rest inc.rest }

/-- Merge of a caller-supplied `value` into the stored one (serializers.py
lines 54-72): shallow top-level merge, `runtime_state` forced back to the
stored one (or the default when the stored one is falsy), and the auth
sub-documents merged field-wise when the incoming one is an object. -/
def mergeValue (current incoming : CfgValue) : CfgValue :=
  let rt := match current.runtime_state with
    | some r => some r
    | none => some defaultRuntimeState
  let auth := match incoming.auth with
    | some ia =>
      let ca := match current.auth with
        | some a => a
        | none => { password := none, api_token := none, rest := [] }
      some (mergeAuth ca ia)
    | none => current.auth
  { runtime_state := rt, auth := auth, rest := assocMerge current.rest incoming.rest }

/-- `CollectorConfigSerializer.update` (serializers.py lines 48-77): pop
the supplied version and reject on mismatch before touching anything;
otherwise merge a supplied value, set the other supplied fields and
increment the stored version by one.  `Except.error` carries the
409 Conflict detail. -/
def updateConfig (inst : ConfigDoc) (vd : ValidatedData) :
    Except String ConfigDoc :=
  let conflict := match vd.version with
    | some v => v != inst.version
    | none => false
  if conflict then Except.error "Config was modified (version mismatch)."
  else
    let inst1 := match vd.value with
      | some incoming => { inst with value := mergeValue inst.value incoming }
      | none => inst
    let inst2 := match vd.key with
      | some k => { inst1 with key := k }
      | none => inst1
    let inst3 := match vd.is_enabled with
      | some b => { inst2 with is_enabled := b }
      | none => inst2
    Except.ok { inst3 with version := inst3.version + 1 }

/-- Store-level view of an update request: a raised Conflict propagates
before `instance.save()`, so the stored row is untouched.  Returns the
stored document afterwards and whether the update was applied. -/
def configAfterUpdate (inst : ConfigDoc) (vd : ValidatedData) :
    ConfigDoc × Bool :=
  match updateConfig inst vd with
  | Except.ok d => (d, true)
  | Except.error _ => (inst, false)

/-- Result dictionary returned when the lock is already held (task_lock.py
lines 216-221). -/
def taskAlreadyRunningDict (name : String) : List (String × RVal) :=
  [("success", RVal.b false), ("status", RVal.s ("skipped")),
   ("reason", RVal.s ("task_already_running")),
   ("error", RVal.s ("Task " ++ name ++ " is already running"))]

/-- Result dictionary returned when `cache.add` fails (task_lock.py lines
227-232). -/
def lockAcquireFailedDict (name : String) : List (String × RVal) :=
  [("success", RVal.b false), ("status", RVal.s ("skipped")),
   ("reason", RVal.s ("lock_acquisition_failed")),
   ("error", RVal.s ("Failed to acquire lock for " ++ name))]

/-- Lock key construction `_build_task_lock_name` (task_lock.py lines
120-157); the md5 fallback for parameter values longer than 200
characters is an oracle. -/
def buildTaskLockName (lockName paramValue : String)
    (md5hex16 : String → String) : String :=
  if paramValue = "" then lockName
  else if paramValue.length > 200 then lockName ++ "_" ++ md5hex16 paramValue
  else lockName ++ "_" ++ paramValue

/-- The `prevent_duplicate_task` wrapper (task_lock.py lines 189-246) for
one invocation: `lockHeld` is whether the cache already holds the key,
`acquireOk` whether `cache.add` succeeds, `body` the wrapped job over an
abstract mutable state (records, attachments, runtime_state);
`Except.error` models the body raising.  Returns (state, lock held after,
outcome); the `finally` releases the lock on every body outcome. -/
def preventDuplicateTask {σ : Type} (lockHeld acquireOk : Bool)
    (name : String) (body : σ → σ × Except String (List (String × RVal)))
    (st : σ) : σ × Bool × Except String (List (String × RVal)) :=
  if lockHeld then (st, true, Except.ok (taskAlreadyRunningDict name))
  else if !acquireOk then (st, false, Except.ok (lockAcquireFailedDict name))
  else
    let out := body st
    (out.1, false, out.2)

/-- Helper: `resolveInitialRange` is 90 days exactly for "3m" and 30 days
for every other value including unknown ones. -/
theorem resolveInitialRange_eq (r : Option String) :
    resolveInitialRange r = if r = some ("3m") then 90 else 30 := by
  cases r with
  | none => rfl
  | some s =>
    by_cases h3 : s = "3m"
    · subst h3; rfl
    · by_cases h0 : s = ""
      · subst h0; simp [resolveInitialRange]
      · by_cases h1 : s = "1m"
        · subst h1; simp [resolveInitialRange]
        · simp [resolveInitialRange, h0, h1, h3]

/-- Helper: membership in a left fold that appends images of the
elements. -/
theorem mem_foldl_append {α β : Type} (f : α → List β) (l : List α)
    (acc : List β) (x : β) :
    x ∈ l.foldl (fun a r => a ++ f r) acc ↔ x ∈ acc ∨ ∃ r ∈ l, x ∈ f r := by
  induction l generalizing acc with
  | nil => simp
  | cons a t ih =>
    simp only [List.foldl_cons, ih, List.mem_append, List.mem_cons]
    constructor
    · rintro (⟨h | h⟩ | ⟨r, hr, hx⟩)
      · exact Or.inl h
      · exact Or.inr ⟨a, Or.inl rfl, h⟩
      · exact Or.inr ⟨r, Or.inr hr, hx⟩
    · rintro (h | ⟨r, rfl | hr, hx⟩)
      · exact Or.inl (Or.inl h)
      · exact Or.inl (Or.inr hx)
      · exact Or.inr ⟨r, hr, hx⟩

/-- Helper: replacing the records matching a key with `find?` keeps the
first match, mapped. -/
theorem find?_map_replace (store : List RawRecord) (s : String)
    (g : RawRecord → RawRecord)
    (hg : ∀ x : RawRecord, (g x).source_unique_id = x.source_unique_id)
    (r : RawRecord)
    (h : store.find? (fun x => x.source_unique_id == s) = some r) :
    (store.map (fun x => if x.source_unique_id == s then g x else x)).find?
      (fun x => x.source_unique_id == s) = some (g r) := by
  induction store with
  | nil => simp at h
  | cons a l ih =>
    cases ha : (a.source_unique_id == s) with
    | true =>
      rw [List.find?_cons_of_pos _ (by exact ha)] at h
      have har : a = r := by injection h
      subst har
      rw [List.map_cons, if_pos ha]
      have hga : ((g a).source_unique_id == s) = true := by
        rw [hg a]; exact ha
      exact List.find?_cons_of_pos _ hga
    | false =>
      rw [List.find?_cons_of_neg _ (by simp [ha])] at h
      rw [List.map_cons, if_neg (by simp [ha])]
      rw [List.find?_cons_of_neg _ (by simp [ha])]
      exact ih h

/-- Helper: a record whose key differs from the replaced one is untouched
by the keyed replacement map. -/
theorem mem_map_replace_of_ne (store : List RawRecord) (s : String)
    (g : RawRecord → RawRecord) (x : RawRecord) (hx : x ∈ store)
    (hne : x.source_unique_id ≠ s) :
    x ∈ store.map (fun y => if y.source_unique_id == s then g y else y) := by
  have hfix : (fun y => if y.source_unique_id == s then g y else y) x = x := by
    have : (x.source_unique_id == s) = false := by
      simp [hne]
    simp [this]
  rw [← hfix]
  exact List.mem_map_of_mem _ hx

/-- Helper: mapping the uuid over a keyed row update leaves the uuid list
unchanged. -/
theorem map_uuid_of_replace (rows : List AttRow) (exu fn fp : String) :
    List.map AttRow.uuid (rows.map (fun r =>
        if r.uuid == exu then { r with file_name := fn, file_path := fp }
        else r))
      = List.map AttRow.uuid rows := by
  induction rows with
  | nil => rfl
  | cons a t ih =>
    simp only [List.map_cons]
    rw [ih]
    by_cases hx : (a.uuid == exu) = true
    · rw [if_pos hx]
    · rw [if_neg hx]

/-- Helper: the upsert loop body of `_sync_attachments_for_record` never
drops a row: every uuid present before an iteration is present after it. -/
theorem upsertOne_preserves_uuid (download : AttMeta → Option String)
    (writeOk : String → Bool) (recUuid : String)
    (acc : (List AttRow × Nat) × Nat) (m : AttMeta) (u : String)
    (h : u ∈ acc.1.1.map AttRow.uuid) :
    u ∈ ((upsertOne download writeOk recUuid acc m).1.1.map AttRow.uuid) := by
  unfold upsertOne
  cases hd : download m with
  | none => simpa using h
  | some content =>
    by_cases hc : content = ""
    · simp only [hc, if_true]
      simpa using h
    · simp only [hc, if_false]
      split
      · simpa using h
      · split
        · split
          · rw [map_uuid_of_replace]
            exact h
          · simp only [List.map_append]
            exact List.mem_append_left _ h
        · simp only [List.map_append]
          exact List.mem_append_left _ h

/-- Helper: the whole upsert pass never drops a row uuid. -/
theorem upsertPhase_preserves_uuid (download : AttMeta → Option String)
    (writeOk : String → Bool) (recUuid : String) (attList : List AttMeta) :
    ∀ (acc : (List AttRow × Nat) × Nat) (u : String),
      u ∈ acc.1.1.map AttRow.uuid →
      u ∈ ((attList.foldl (upsertOne download writeOk recUuid) acc).1.1.map
        AttRow.uuid) := by
  induction attList with
  | nil => intro acc u h; simpa using h
  | cons m t ih =>
    intro acc u h
    exact ih _ u (upsertOne_preserves_uuid download writeOk recUuid acc m u h)

/-- Helper: the removal predicate is false exactly when the row has no
usable stale evidence. -/
theorem isStaleRow_eq_false_iff (cur : List String) (r : AttRow) :
    isStaleRow cur r = false ↔
      ¬ ∃ s, r.source_file_id = some s ∧ s ≠ "" ∧ s ∉ cur := by
  cases hs : r.source_file_id with
  | none => simp [isStaleRow, hs]
  | some s =>
    simp only [isStaleRow, hs]
    constructor
    · intro h
      rintro ⟨s1, hs1, hne, hnm⟩
      have : s1 = s := by injection hs1.symm
      subst this
      simp only [Bool.and_eq_false_iff, Bool.not_eq_false] at h
      rcases h with h | h
      · exact hnm (by simpa using h)
      · exact hne (by simpa using h)
    · intro h
      by_contra hb
      simp only [Bool.not_eq_false, Bool.and_eq_true, Bool.not_eq_true] at hb
      exact h ⟨s, rfl, by simpa using hb.2, by simpa using hb.1⟩

/-- C3: with no explicit caller-supplied time range, the run_collect
window is [now - initial_range, now) on the very first run, where "3m"
resolves to 90 days and every other value (known or not) to 30 days; on
later runs the start is last_success_collect_at when present (else
now - 30 days), clamped to be no later than now - 1 day, and the end is
now. -/
theorem run_collect_window_determination (sa ea : TimeArg)
    (rt : RuntimeState) (ir : Option String) (now : Int)
    (h : sa = TimeArg.absent ∨ ea = TimeArg.absent) :
    computeWindow sa ea rt ir now =
      match rt.first_collect_at with
      | none =>
        WindowOutcome.window
          (now - days (if ir = some ("3m") then 90 else 30)) now
      | some _ =>
        WindowOutcome.window
          (min (match rt.last_success_collect_at with
                | some t => t
                | none => now - days 30) (now - days 1)) now := by
  have hno : ¬ (sa ≠ TimeArg.absent ∧ ea ≠ TimeArg.absent) := by
    rcases h with h | h <;> subst h <;> simp
  simp only [computeWindow]
  rw [if_neg hno]
  cases hf : rt.first_collect_at with
  | none =>
    rw [if_pos rfl, resolveInitialRange_eq]
  | some t0 =>
    rw [if_neg (show ¬ ((some t0 : Option Int) = none) by simp)]
    cases hl : rt.last_success_collect_at with
    | none =>
      simp only
      by_cases hgt : now - days 30 > now - days 1
      · rw [if_pos hgt, min_eq_right (le_of_lt hgt)]
      · rw [if_neg hgt, min_eq_left (not_lt.mp hgt)]
    | some t1 =>
      simp only
      by_cases hgt : t1 > now - days 1
      · rw [if_pos hgt, min_eq_right (le_of_lt hgt)]
      · rw [if_neg hgt, min_eq_left (not_lt.mp hgt)]

/-- C3 witness: a first run with initial_range "3m" and no explicit range
scans exactly the last 90 days. -/
theorem run_collect_window_determination_witness :
    computeWindow TimeArg.absent TimeArg.absent defaultRuntimeState
      (some ("3m")) 0 = WindowOutcome.window (0 - days 90) 0 := by
  have h := run_collect_window_determination TimeArg.absent TimeArg.absent
    defaultRuntimeState (some ("3m")) 0 (Or.inl rfl)
  exact h.trans (by decide)

/-- C4 (code bug witness): after a successful client construction, a
per-key fetch that raises for a transient reason (indistinguishable from
"issue does not exist" under the bare `except`) is reported missing, and
run_validate then tombstones that record — the provider error is not
fail-closed. -/
theorem jira_validate_transport_error_tombstones :
    jiraValidate true (fun _ => KeyOutcome.transportError) ["ISS-1"]
      = ["ISS-1"] ∧
    ((runValidate
        [{ source_unique_id := "ISS-1", raw_data := "", filter_metadata := "",
           data_hash := "h", is_deleted := false, source_created_at := none,
           source_updated_at := none, first_collected_at := some 5,
           last_collected_at := some 5, attachments := [] }]
        (some (jiraValidate true (fun _ => KeyOutcome.transportError)))
        0 10).1.map (fun r => r.is_deleted)) = [true] := by
  constructor
  · rfl
  · rfl

/-- C5 counterexample: the run_collect success result carries only
success/records_created/records_updated; none of the five count keys the
claim requires (under either the spec naming or the records_ prefixed
naming) for skipped or deleted items is present. -/
theorem run_collect_result_missing_count_keys :
    (runCollectSuccessDict 0 0).map Prod.fst
      = ["success", "records_created", "records_updated"] ∧
    "skipped_no_id" ∉ (runCollectSuccessDict 0 0).map Prod.fst ∧
    "skipped_unchanged" ∉ (runCollectSuccessDict 0 0).map Prod.fst ∧
    "deleted" ∉ (runCollectSuccessDict 0 0).map Prod.fst ∧
    "records_deleted" ∉ (runCollectSuccessDict 0 0).map Prod.fst ∧
    "created" ∉ (runCollectSuccessDict 0 0).map Prod.fst ∧
    "updated" ∉ (runCollectSuccessDict 0 0).map Prod.fst := by
  decide

/-- C5 (amended): each job returns a fixed, machine-readable key set —
run_collect: success, records_created, records_updated; run_cleanup:
success, records_deleted; run_validate: success, records_validated,
records_marked_deleted.  The skipped_no_sid and skipped_unchanged counters
are computed and logged but not part of any returned result. -/
theorem job_result_key_sets (c u d v m : Nat) :
    (runCollectSuccessDict c u).map Prod.fst
      = ["success", "records_created", "records_updated"] ∧
    (runCleanupSuccessDict d).map Prod.fst
      = ["success", "records_deleted"] ∧
    (runValidateSuccessDict v m).map Prod.fst
      = ["success", "records_validated", "records_marked_deleted"] :=
  ⟨rfl, rfl, rfl⟩

/-- C9: invoking a lock-guarded job while the lock is held returns the
skipped result immediately with the job state (records, attachments,
runtime_state) untouched and the body never run; once the lock is
acquired it is released on every outcome of the body, including a raised
exception. -/
theorem prevent_duplicate_task_lock_spec :
    (∀ (σ : Type) (st : σ) (name : String) (aok : Bool)
       (body : σ → σ × Except String (List (String × RVal))),
       preventDuplicateTask true aok name body st
         = (st, true, Except.ok (taskAlreadyRunningDict name))) ∧
    (∀ (σ : Type) (st : σ) (name : String)
       (body : σ → σ × Except String (List (String × RVal))),
       preventDuplicateTask false true name body st
         = ((body st).1, false, (body st).2)) := by
  constructor
  · intro σ st name aok body
    rfl
  · intro σ st name body
    rfl

/-- C1 counterexample: a record holding one attachment row with null
source_file_id, reconciled against an empty reported list, loses that row
(and the removed count is 1), so "an attachment row with null
source_file_id is never deleted by reconciliation, for every possible
reported list (including an empty list)" is false on the code. -/
theorem sync_attachments_deletes_null_sid_for_empty_report :
    ¬ ({ uuid := "a1", source_file_id := none, file_name := "f",
         file_path := "p" } : AttRow) ∈
        (syncAttachmentsForRecord (some []) (fun _ => none) (fun _ => true)
          ("rec") 0
          [{ uuid := "a1", source_file_id := none, file_name := "f",
             file_path := "p" }]).1 ∧
    (syncAttachmentsForRecord (some []) (fun _ => none) (fun _ => true)
      ("rec") 0
      [{ uuid := "a1", source_file_id := none, file_name := "f",
         file_path := "p" }]).2.2 = 1 := by
  decide

/-- C1 (amended): a failed attachment fetch changes nothing; the upsert
pass only inserts or updates rows (every pre-existing row uuid survives
it); when the reported set of non-null source_file_ids is empty (empty
list, or every reported attachment has a null id) ALL attachment rows of
the record are deleted, null ids included; otherwise the surviving rows
are exactly the post-upsert rows that are not provably stale: every row
whose source_file_id is null, empty, or among the reported ids is kept,
and the rest are deleted. -/
theorem sync_attachments_removal_characterization
    (download : AttMeta → Option String) (writeOk : String → Bool)
    (recUuid : String) (uuidStart : Nat) (rows : List AttRow)
    (attList : List AttMeta) :
    (syncAttachmentsForRecord none download writeOk recUuid uuidStart rows
       = (rows, 0, 0)) ∧
    (∀ u : String, u ∈ rows.map AttRow.uuid →
       u ∈ ((upsertPhase download writeOk recUuid rows uuidStart
         attList).1.1.map AttRow.uuid)) ∧
    (currentSourceIds attList = [] →
       (syncAttachmentsForRecord (some attList) download writeOk recUuid
         uuidStart rows).1 = []) ∧
    (currentSourceIds attList ≠ [] →
       ∀ r : AttRow,
         r ∈ (syncAttachmentsForRecord (some attList) download writeOk
             recUuid uuidStart rows).1 ↔
           r ∈ (upsertPhase download writeOk recUuid rows uuidStart
             attList).1.1 ∧
           ¬ ∃ s, r.source_file_id = some s ∧ s ≠ "" ∧
             s ∉ currentSourceIds attList) := by
  refine ⟨rfl, ?_, ?_, ?_⟩
  · intro u hu
    exact upsertPhase_preserves_uuid download writeOk recUuid attList _ u hu
  · intro hc
    simp only [syncAttachmentsForRecord, hc, List.isEmpty_nil, if_true]
  · intro hc r
    have hemp : (currentSourceIds attList).isEmpty = false := by
      cases hcl : currentSourceIds attList with
      | nil => exact absurd hcl hc
      | cons a t => rfl
    simp only [syncAttachmentsForRecord, hemp, if_false]
    rw [if_neg (show ¬ ((false : Bool) = true) by simp)]
    simp only [List.mem_filter, Bool.not_eq_true', isStaleRow_eq_false_iff]

/-- C1 witness: when the reported list does contain a non-null
source_file_id, a null-id attachment row survives reconciliation. -/
theorem sync_attachments_removal_characterization_witness :
    ({ uuid := "a1", source_file_id := none, file_name := "f",
       file_path := "p" } : AttRow) ∈
      (syncAttachmentsForRecord
        (some [{ source_file_id := some ("s9"), file_name := some ("x") }])
        (fun _ => none) (fun _ => true) ("rec") 0
        [{ uuid := "a1", source_file_id := none, file_name := "f",
           file_path := "p" },
         { uuid := "a2", source_file_id := some ("gone"), file_name := "g",
           file_path := "q" }]).1 := by
  have h := sync_attachments_removal_characterization
    (fun _ => none) (fun _ => true) ("rec") 0
    [{ uuid := "a1", source_file_id := none, file_name := "f",
       file_path := "p" },
     { uuid := "a2", source_file_id := some ("gone"), file_name := "g",
       file_path := "q" }]
    [{ source_file_id := some ("s9"), file_name := some ("x") }]
  refine (h.2.2.2 (by decide) _).mpr ⟨by decide, ?_⟩
  rintro ⟨s, hs, _⟩
  exact Option.noConfusion hs

/-- C2: per fetched item, run_collect counts and skips items whose
source_unique_id is missing (falsy) without touching the store; creates a
record with first_collected_at = last_collected_at = now when the natural
key is new; when the key exists and the hash differs it rewrites
raw_data/filter_metadata/data_hash/source timestamps and stamps
last_collected_at = now; when the hash is equal the stored record changes
only in last_collected_at = now (raw_data untouched); in every keyed case
records with other keys are untouched and no row is added or dropped. -/
theorem run_collect_persistence_rule (store : List RawRecord) (cnt : Counts)
    (item : Item) (now : Int) :
    (sidTruthy item.source_unique_id = none →
       processItem now (store, cnt) item =
         (store, { cnt with skipped_no_sid := cnt.skipped_no_sid + 1 })) ∧
    (∀ s : String, sidTruthy item.source_unique_id = some s →
      (store.find? (fun r => r.source_unique_id == s) = none →
         processItem now (store, cnt) item =
           (store ++ [{ source_unique_id := s,
                        raw_data := itemRawData item,
                        filter_metadata := itemFilterMetadata item,
                        data_hash := itemDataHash item,
                        is_deleted := false,
                        source_created_at := item.source_created_at,
                        source_updated_at := item.source_updated_at,
                        first_collected_at := some now,
                        last_collected_at := some now,
                        attachments := [] }],
            { cnt with created := cnt.created + 1 })) ∧
      (∀ rec : RawRecord,
        store.find? (fun r => r.source_unique_id == s) = some rec →
        (rec.data_hash ≠ itemDataHash item →
           (processItem now (store, cnt) item).2 =
             { cnt with updated := cnt.updated + 1 } ∧
           (processItem now (store, cnt) item).1.find?
               (fun r => r.source_unique_id == s) =
             some { rec with raw_data := itemRawData item,
                             filter_metadata := itemFilterMetadata item,
                             data_hash := itemDataHash item,
                             source_created_at := item.source_created_at,
                             source_updated_at := item.source_updated_at,
                             last_collected_at := some now } ∧
           (∀ x ∈ store, x.source_unique_id ≠ s →
              x ∈ (processItem now (store, cnt) item).1) ∧
           (processItem now (store, cnt) item).1.length = store.length) ∧
        (rec.data_hash = itemDataHash item →
           (processItem now (store, cnt) item).2 =
             { cnt with skipped_unchanged := cnt.skipped_unchanged + 1 } ∧
           (processItem now (store, cnt) item).1.find?
               (fun r => r.source_unique_id == s) =
             some { rec with last_collected_at := some now } ∧
           (∀ x ∈ store, x.source_unique_id ≠ s →
              x ∈ (processItem now (store, cnt) item).1) ∧
           (processItem now (store, cnt) item).1.length = store.length))) := by
  refine ⟨?_, ?_⟩
  · intro h
    simp only [processItem, h]
  · intro s hs
    refine ⟨?_, ?_⟩
    · intro hf
      simp only [processItem, hs, hf]
    · intro rec hf
      refine ⟨?_, ?_⟩
      · intro hne
        have hrun : processItem now (store, cnt) item =
            (store.map (fun r =>
               if r.source_unique_id == s then
                 { r with raw_data := itemRawData item,
                          filter_metadata := itemFilterMetadata item,
                          data_hash := itemDataHash item,
                          source_created_at := item.source_created_at,
                          source_updated_at := item.source_updated_at,
                          last_collected_at := some now }
               else r),
             { cnt with updated := cnt.updated + 1 }) := by
          simp only [processItem, hs, hf]
          rw [if_pos hne]
        refine ⟨by rw [hrun], ?_, ?_, ?_⟩
        · rw [hrun]
          exact find?_map_replace store s
            (fun r => { r with raw_data := itemRawData item,
                               filter_metadata := itemFilterMetadata item,
                               data_hash := itemDataHash item,
                               source_created_at := item.source_created_at,
                               source_updated_at := item.source_updated_at,
                               last_collected_at := some now })
            (fun x => rfl) rec hf
        · intro x hx hxne
          rw [hrun]
          exact mem_map_replace_of_ne store s _ x hx hxne
        · rw [hrun]
          exact List.length_map _ _
      · intro heq
        have hne2 : ¬ (rec.data_hash ≠ itemDataHash item) := by
          simp [heq]
        have hrun : processItem now (store, cnt) item =
            (store.map (fun r =>
               if r.source_unique_id == s then
                 { r with last_collected_at := some now }
               else r),
             { cnt with
                 skipped_unchanged := cnt.skipped_unchanged + 1 }) := by
          simp only [processItem, hs, hf]
          rw [if_neg hne2]
        refine ⟨by rw [hrun], ?_, ?_, ?_⟩
        · rw [hrun]
          exact find?_map_replace store s
            (fun r => { r with last_collected_at := some now })
            (fun x => rfl) rec hf
        · intro x hx hxne
          rw [hrun]
          exact mem_map_replace_of_ne store s _ x hx hxne
        · rw [hrun]
          exact List.length_map _ _

/-- C2 witness: an item without a source_unique_id is counted and not
stored, and re-fetching an unchanged item leaves everything but
last_collected_at alone. -/
theorem run_collect_persistence_rule_witness :
    processItem 7
        ([], { created := 0, updated := 0, skipped_no_sid := 0,
               skipped_unchanged := 0 })
        { source_unique_id := none, raw_data := none,
          filter_metadata := none, data_hash := some ("x"),
          source_created_at := none, source_updated_at := none } =
      ([], { created := 0, updated := 0, skipped_no_sid := 1,
             skipped_unchanged := 0 }) ∧
    (processItem 7
        ([{ source_unique_id := "A", raw_data := "old",
            filter_metadata := "m", data_hash := "h", is_deleted := false,
            source_created_at := none, source_updated_at := none,
            first_collected_at := some 0, last_collected_at := some 0,
            attachments := [] }],
         { created := 0, updated := 0, skipped_no_sid := 0,
           skipped_unchanged := 0 })
        { source_unique_id := some ("A"), raw_data := some ("old"),
          filter_metadata := some ("m"), data_hash := some ("h"),
          source_created_at := none, source_updated_at := none }).1.find?
        (fun r => r.source_unique_id == ("A" : String)) =
      some { source_unique_id := "A", raw_data := "old",
             filter_metadata := "m", data_hash := "h", is_deleted := false,
             source_created_at := none, source_updated_at := none,
             first_collected_at := some 0, last_collected_at := some 7,
             attachments := [] } := by
  have h1 := run_collect_persistence_rule []
    { created := 0, updated := 0, skipped_no_sid := 0,
      skipped_unchanged := 0 }
    { source_unique_id := none, raw_data := none, filter_metadata := none,
      data_hash := some ("x"), source_created_at := none,
      source_updated_at := none } 7
  have h2 := run_collect_persistence_rule
    [{ source_unique_id := "A", raw_data := "old", filter_metadata := "m",
       data_hash := "h", is_deleted := false, source_created_at := none,
       source_updated_at := none, first_collected_at := some 0,
       last_collected_at := some 0, attachments := [] }]
    { created := 0, updated := 0, skipped_no_sid := 0,
      skipped_unchanged := 0 }
    { source_unique_id := some ("A"), raw_data := some ("old"),
      filter_metadata := some ("m"), data_hash := some ("h"),
      source_created_at := none, source_updated_at := none } 7
  constructor
  · exact (h1.1 (by decide)).trans (by decide)
  · exact ((((h2.2 ("A") (by decide)).2
      { source_unique_id := "A", raw_data := "old", filter_metadata := "m",
        data_hash := "h", is_deleted := false, source_created_at := none,
        source_updated_at := none, first_collected_at := some 0,
        last_collected_at := some 0, attachments := [] }
      (by decide)).2 (by decide)).2.1).trans (by decide)

/-- C6: with cutoff = now - retention_days (retention_days supplied and
non-zero, since a falsy value falls back to 180), run_cleanup deletes
every record of the config whose last_collected_at is strictly older than
the cutoff (its attachment rows go with it, and backing files are removed
from disk before the rows, best-effort), retains every record whose
last_collected_at is at or after the cutoff, only ever removes files that
belonged to a deleted record, and sets runtime_state.last_cleanup_at to
now unconditionally (also when zero records were removed). -/
theorem run_cleanup_retention_spec (store : List RawRecord)
    (fs : List String) (rt : RuntimeState) (d : Nat)
    (removeOk : String → Bool) (now : Int) (hd : 0 < d) :
    (∀ r ∈ store, ∀ t : Int, r.last_collected_at = some t →
       t < now - days d →
       r ∉ (runCleanup store fs rt (some d) removeOk now).1) ∧
    (∀ r ∈ store, ∀ t : Int, r.last_collected_at = some t →
       now - days d ≤ t →
       r ∈ (runCleanup store fs rt (some d) removeOk now).1) ∧
    (runCleanup store fs rt (some d) removeOk now).2.2.1.last_cleanup_at
      = some now ∧
    (∀ p, p ∈ fs →
       p ∉ (runCleanup store fs rt (some d) removeOk now).2.1 →
       ∃ r, r ∈ store ∧
         (∃ t : Int, r.last_collected_at = some t ∧ t < now - days d) ∧
         p ∈ r.attachments.map (fun a => a.file_path)) ∧
    (∀ p ∈ fs, p ≠ "" → removeOk p = true →
       (∃ r, r ∈ store ∧
          (∃ t : Int, r.last_collected_at = some t ∧ t < now - days d) ∧
          p ∈ r.attachments.map (fun a => a.file_path)) →
       p ∉ (runCleanup store fs rt (some d) removeOk now).2.1) := by
  have h0 : ¬ (d = 0) := Nat.pos_iff_ne_zero.mp hd
  simp only [runCleanup, if_neg h0]
  refine ⟨?_, ?_, by trivial, ?_, ?_⟩
  · intro r hr t ht hlt hmem
    have hp := (List.mem_filter.mp hmem).2
    rw [ht] at hp
    simp only [Bool.not_eq_true', decide_eq_false_iff_not] at hp
    exact hp hlt
  · intro r hr t ht hle
    refine List.mem_filter.mpr ⟨hr, ?_⟩
    rw [ht]
    simp only [Bool.not_eq_true', decide_eq_false_iff_not]
    exact not_lt.mpr hle
  · intro p hp hnot
    by_cases hqv : (!(p != "" &&
        (List.foldl (fun (acc : List String) (r : RawRecord) =>
            acc ++ r.attachments.map (fun a => a.file_path)) []
          (store.filter (fun r =>
            match r.last_collected_at with
            | some t => decide (t < now - days d)
            | none => false))).contains p && removeOk p)) = true
    · exact absurd (List.mem_filter.mpr ⟨hp, hqv⟩) hnot
    · have handtrue : (p != "" &&
          (List.foldl (fun (acc : List String) (r : RawRecord) =>
              acc ++ r.attachments.map (fun a => a.file_path)) []
            (store.filter (fun r =>
              match r.last_collected_at with
              | some t => decide (t < now - days d)
              | none => false))).contains p && removeOk p) = true := by
        cases hx : (p != "" &&
            (List.foldl (fun acc r =>
                acc ++ r.attachments.map (fun a => a.file_path)) []
              (store.filter (fun r =>
                match r.last_collected_at with
                | some t => decide (t < now - days d)
                | none => false))).contains p && removeOk p) with
        | false => exact absurd (by rw [hx]; rfl) hqv
        | true => rfl
      simp only [Bool.and_eq_true] at handtrue
      have hpmem : p ∈ List.foldl (fun (acc : List String) (r : RawRecord) =>
          acc ++ r.attachments.map (fun a => a.file_path)) []
          (store.filter (fun r =>
            match r.last_collected_at with
            | some t => decide (t < now - days d)
            | none => false)) := by
        have := handtrue.1.2
        simpa using this
      rcases (mem_foldl_append (fun (r : RawRecord) =>
          r.attachments.map (fun a => a.file_path)) _ [] p).mp hpmem with
        hfalse | ⟨r, hrf, hpr⟩
      · exact absurd hfalse (List.not_mem_nil p)
      · have hrs := List.mem_filter.mp hrf
        refine ⟨r, hrs.1, ?_, hpr⟩
        rcases hlast : r.last_collected_at with _ | t
        · rw [hlast] at hrs
          exact absurd hrs.2 (by simp)
        · rw [hlast] at hrs
          exact ⟨t, rfl, by simpa using hrs.2⟩
  · intro p hp hne hok hex hmem
    rcases hex with ⟨r, hr, ⟨t, ht, hlt⟩, hpath⟩
    have hq := (List.mem_filter.mp hmem).2
    have hrdel : r ∈ store.filter (fun r =>
        match r.last_collected_at with
        | some t => decide (t < now - days d)
        | none => false) :=
      List.mem_filter.mpr ⟨hr, by rw [ht]; simpa using hlt⟩
    have hmem2 : p ∈ List.foldl (fun (acc : List String) (r : RawRecord) =>
        acc ++ r.attachments.map (fun a => a.file_path)) []
        (store.filter (fun r =>
          match r.last_collected_at with
          | some t => decide (t < now - days d)
          | none => false)) :=
      (mem_foldl_append (fun (r : RawRecord) =>
        r.attachments.map (fun a => a.file_path)) _ [] p).mpr
        (Or.inr ⟨r, hrdel, hpath⟩)
    have handtrue : (p != "" &&
        (List.foldl (fun (acc : List String) (r : RawRecord) =>
            acc ++ r.attachments.map (fun a => a.file_path)) []
          (store.filter (fun r =>
            match r.last_collected_at with
            | some t => decide (t < now - days d)
            | none => false))).contains p && removeOk p) = true := by
      refine (Bool.and_eq_true _ _).mpr ⟨(Bool.and_eq_true _ _).mpr ⟨?_, ?_⟩, hok⟩
      · exact bne_iff_ne.mpr hne
      · simpa using hmem2
    rw [handtrue] at hq
    exact absurd hq (by simp)

/-- C6 witness: with retention 30 days at now = day 100, a record last
collected at second 5 is gone, a record last collected at day 99 is kept,
and last_cleanup_at is stamped. -/
theorem run_cleanup_retention_spec_witness :
    ({ source_unique_id := "OLD", raw_data := "", filter_metadata := "",
       data_hash := "h", is_deleted := false, source_created_at := none,
       source_updated_at := none, first_collected_at := some 5,
       last_collected_at := some 5, attachments := [] } : RawRecord) ∉
      (runCleanup
        [{ source_unique_id := "OLD", raw_data := "", filter_metadata := "",
           data_hash := "h", is_deleted := false, source_created_at := none,
           source_updated_at := none, first_collected_at := some 5,
           last_collected_at := some 5, attachments := [] },
         { source_unique_id := "NEW", raw_data := "", filter_metadata := "",
           data_hash := "h", is_deleted := false, source_created_at := none,
           source_updated_at := none, first_collected_at := some 5,
           last_collected_at := some (days 99), attachments := [] }]
        [] defaultRuntimeState (some 30) (fun _ => true) (days 100)).1 ∧
    ({ source_unique_id := "NEW", raw_data := "", filter_metadata := "",
       data_hash := "h", is_deleted := false, source_created_at := none,
       source_updated_at := none, first_collected_at := some 5,
       last_collected_at := some (days 99), attachments := [] } :
        RawRecord) ∈
      (runCleanup
        [{ source_unique_id := "OLD", raw_data := "", filter_metadata := "",
           data_hash := "h", is_deleted := false, source_created_at := none,
           source_updated_at := none, first_collected_at := some 5,
           last_collected_at := some 5, attachments := [] },
         { source_unique_id := "NEW", raw_data := "", filter_metadata := "",
           data_hash := "h", is_deleted := false, source_created_at := none,
           source_updated_at := none, first_collected_at := some 5,
           last_collected_at := some (days 99), attachments := [] }]
        [] defaultRuntimeState (some 30) (fun _ => true) (days 100)).1 ∧
    (runCleanup
        [{ source_unique_id := "OLD", raw_data := "", filter_metadata := "",
           data_hash := "h", is_deleted := false, source_created_at := none,
           source_updated_at := none, first_collected_at := some 5,
           last_collected_at := some 5, attachments := [] },
         { source_unique_id := "NEW", raw_data := "", filter_metadata := "",
           data_hash := "h", is_deleted := false, source_created_at := none,
           source_updated_at := none, first_collected_at := some 5,
           last_collected_at := some (days 99), attachments := [] }]
        [] defaultRuntimeState (some 30) (fun _ => true)
        (days 100)).2.2.1.last_cleanup_at = some (days 100) := by
  have h := run_cleanup_retention_spec
    [{ source_unique_id := "OLD", raw_data := "", filter_metadata := "",
       data_hash := "h", is_deleted := false, source_created_at := none,
       source_updated_at := none, first_collected_at := some 5,
       last_collected_at := some 5, attachments := [] },
     { source_unique_id := "NEW", raw_data := "", filter_metadata := "",
       data_hash := "h", is_deleted := false, source_created_at := none,
       source_updated_at := none, first_collected_at := some 5,
       last_collected_at := some (days 99), attachments := [] }]
    [] defaultRuntimeState 30 (fun _ => true) (days 100) (by decide)
  exact ⟨h.1 _ (by decide) 5 rfl (by decide),
    h.2.1 _ (by decide) (days 99) rfl (by decide), h.2.2.1⟩

/-- C7: an update that supplies a version not matching the stored one is
rejected with the Conflict error before anything is written, leaving the
stored document untouched; one that supplies the matching version is
applied and the stored version afterwards is exactly the old version plus
one. -/
theorem config_update_optimistic_concurrency (inst : ConfigDoc)
    (vd : ValidatedData) (v : Int) (hv : vd.version = some v) :
    (v ≠ inst.version →
       updateConfig inst vd
         = Except.error ("Config was modified (version mismatch).") ∧
       configAfterUpdate inst vd = (inst, false)) ∧
    (v = inst.version →
       (configAfterUpdate inst vd).2 = true ∧
       (configAfterUpdate inst vd).1.version = inst.version + 1) := by
  constructor
  · intro hne
    have hb : (v != inst.version) = true := bne_iff_ne.mpr hne
    have h1 : updateConfig inst vd
        = Except.error ("Config was modified (version mismatch).") := by
      simp only [updateConfig, hv]
      rw [if_pos hb]
    exact ⟨h1, by simp only [configAfterUpdate, h1]⟩
  · intro heq
    have hb : ¬ ((v != inst.version) = true) := by
      simp [heq]
    simp only [configAfterUpdate, updateConfig, hv]
    rw [if_neg hb]
    refine ⟨rfl, ?_⟩
    cases hval : vd.value <;> cases hk : vd.key <;>
      cases he : vd.is_enabled <;> rfl

/-- C7 witness: with stored version 3, an update carrying version 2 is
rejected leaving the document unchanged, and an update carrying version 3
is applied with the stored version becoming 4. -/
theorem config_update_optimistic_concurrency_witness :
    configAfterUpdate
        { key := "k",
          value := { runtime_state := some defaultRuntimeState,
                     auth := none, rest := [] },
          is_enabled := true, version := 3 }
        { version := some 2, value := none, key := none,
          is_enabled := some false }
      = ({ key := "k",
           value := { runtime_state := some defaultRuntimeState,
                      auth := none, rest := [] },
           is_enabled := true, version := 3 }, false) ∧
    (configAfterUpdate
        { key := "k",
          value := { runtime_state := some defaultRuntimeState,
                     auth := none, rest := [] },
          is_enabled := true, version := 3 }
        { version := some 3, value := none, key := none,
          is_enabled := some false }).2 = true ∧
    (configAfterUpdate
        { key := "k",
          value := { runtime_state := some defaultRuntimeState,
                     auth := none, rest := [] },
          is_enabled := true, version := 3 }
        { version := some 3, value := none, key := none,
          is_enabled := some false }).1.version = 4 := by
  have h1 := config_update_optimistic_concurrency
    { key := "k",
      value := { runtime_state := some defaultRuntimeState,
                 auth := none, rest := [] },
      is_enabled := true, version := 3 }
    { version := some 2, value := none, key := none,
      is_enabled := some false } 2 rfl
  have h2 := config_update_optimistic_concurrency
    { key := "k",
      value := { runtime_state := some defaultRuntimeState,
                 auth := none, rest := [] },
      is_enabled := true, version := 3 }
    { version := some 3, value := none, key := none,
      is_enabled := some false } 3 rfl
  exact ⟨(h1.1 (by decide)).2, (h2.2 rfl).1, ((h2.2 rfl).2).trans (by decide)⟩

/-- C8: when both time arguments are supplied explicitly, run_collect
rejects the run before doing anything when either fails to parse (format
error) or when start is not before end (order error); in both cases the
record store and the runtime_state are returned exactly as they were and
the failure dictionary is the job result. -/
theorem run_collect_invalid_time_range_no_mutation
    (store : List RawRecord) (rt : RuntimeState) (ir : Option String)
    (provider : Option (Except String (List Item))) (now : Int)
    (sa ea : TimeArg) (hs : sa ≠ TimeArg.absent) (he : ea ≠ TimeArg.absent) :
    ((sa = TimeArg.unparseable ∨ ea = TimeArg.unparseable) →
       runCollect store rt sa ea ir provider now =
         (store, rt, Except.ok (runCollectFailureDict invalidFormatMsg))) ∧
    (∀ s e : Int, sa = TimeArg.parsed s → ea = TimeArg.parsed e → s ≥ e →
       runCollect store rt sa ea ir provider now =
         (store, rt, Except.ok (runCollectFailureDict invalidOrderMsg))) := by
  constructor
  · intro hor
    have hcw : computeWindow sa ea rt ir now = WindowOutcome.invalidFormat := by
      simp only [computeWindow]
      rw [if_pos ⟨hs, he⟩]
      rcases hor with h | h
      · subst h
        cases ea with
        | absent => exact absurd rfl he
        | unparseable => rfl
        | parsed e => rfl
      · subst h
        cases sa with
        | absent => exact absurd rfl hs
        | unparseable => rfl
        | parsed s => rfl
    simp only [runCollect, hcw]
  · intro s e hse hee hge
    subst hse
    subst hee
    have hcw : computeWindow (TimeArg.parsed s) (TimeArg.parsed e) rt ir now
        = WindowOutcome.invalidOrder := by
      simp only [computeWindow]
      rw [if_pos ⟨hs, he⟩]
      show (if s ≥ e then WindowOutcome.invalidOrder
        else WindowOutcome.window s e) = WindowOutcome.invalidOrder
      rw [if_pos hge]
    simp only [runCollect, hcw]

/-- C8 witness: an unparseable start with a parsed end fails validation
and returns the store and runtime_state unchanged. -/
theorem run_collect_invalid_time_range_no_mutation_witness :
    runCollect [] defaultRuntimeState TimeArg.unparseable (TimeArg.parsed 5)
        none none 0 =
      ([], defaultRuntimeState,
        Except.ok (runCollectFailureDict invalidFormatMsg)) := by
  have h := run_collect_invalid_time_range_no_mutation []
    defaultRuntimeState none none 0 TimeArg.unparseable (TimeArg.parsed 5)
    (by decide) (by decide)
  exact h.1 (Or.inl rfl)

/-- C10: whenever an update is accepted by the serializer, the stored
runtime_state is engine-owned: if the caller supplied a value, its
runtime_state is discarded and the result carries the previously stored
runtime_state (or the default with all six keys null when none was
stored); if no value was supplied the stored runtime_state is simply
kept. -/
theorem config_update_preserves_runtime_state (inst : ConfigDoc)
    (vd : ValidatedData) (d : ConfigDoc)
    (h : updateConfig inst vd = Except.ok d) :
    d.value.runtime_state =
      match vd.value with
      | some _ =>
        some (match inst.value.runtime_state with
              | some rt => rt
              | none => defaultRuntimeState)
      | none => inst.value.runtime_state := by
  simp only [updateConfig] at h
  by_cases hc : (match vd.version with
      | some v => v != inst.version
      | none => false) = true
  · rw [if_pos hc] at h
    exact absurd h (by simp)
  · rw [if_neg hc] at h
    injection h with h
    subst h
    cases hval : vd.value with
    | none =>
      cases hk : vd.key <;> cases he : vd.is_enabled <;> rfl
    | some incoming =>
      cases hk : vd.key <;> cases he : vd.is_enabled <;>
        cases hrt : inst.value.runtime_state <;>
        simp only [mergeValue, hrt]

/-- C10 witness: a caller-supplied value carrying a default runtime_state
cannot overwrite the stored watermarks: the stored first_collect_at
survives the accepted update. -/
theorem config_update_preserves_runtime_state_witness :
    ({ key := "k",
       value := { runtime_state :=
                    some { defaultRuntimeState with
                             first_collect_at := some 7 },
                  auth := none, rest := [] },
       is_enabled := true, version := 4 } : ConfigDoc).value.runtime_state
      = some { defaultRuntimeState with first_collect_at := some 7 } := by
  have h := config_update_preserves_runtime_state
    { key := "k",
      value := { runtime_state :=
                   some { defaultRuntimeState with
                            first_collect_at := some 7 },
                 auth := none, rest := [] },
      is_enabled := true, version := 3 }
    { version := some 3,
      value := some { runtime_state := some defaultRuntimeState,
                      auth := none, rest := [] },
      key := none, is_enabled := none }
    { key := "k",
      value := { runtime_state :=
                   some { defaultRuntimeState with
                            first_collect_at := some 7 },
                 auth := none, rest := [] },
      is_enabled := true, version := 4 }
    (by rfl)
  exact h.trans (by rfl)

end DevMind
